import Mathlib

/-!
Shallow embedding of the credential / session authentication subsystem of the
N2YO-MCP repository (the `UDLAuthenticator` class in `src/index.ts`), and
verification of the specification's claims about it.

Modelling conventions:
* Node `Buffer`s are `List Byte` with `Byte := Fin 256`; `toString('hex')` /
  `Buffer.from(s, 'hex')` are `hexEncode` / `hexDecode` below (Node's hex
  decoder consumes leading valid hex-digit pairs and stops at the first
  invalid pair, discarding the rest).
* `scrypt(password, salt, 64)` is an abstract parameter
  `scrypt : String → List Byte → List Byte`; where a property needs the fact
  that the real scrypt always yields exactly 64 bytes, that is an explicit
  hypothesis.
* Timestamps (`Date.now()`, ISO strings compared via `new Date(...)`) are
  `Nat` milliseconds; `new Date() > new Date(e)` is `now > e`.
* Randomness (`randomBytes`-derived session ids and API tokens) and the clock
  are inputs threaded through environment records.
* Thrown `Error`s are `Except String` carrying the message from the source.
-/

namespace UDL

abbrev Byte := Fin 256

/-- Lower-case hex digit for `n < 16`, as produced by `Buffer.toString('hex')`. -/
def hexDigitChar (n : Nat) : Char :=
  if n < 10 then Char.ofNat (48 + n) else Char.ofNat (87 + n)

/-- Value of a hex digit character (Node accepts both cases). -/
def hexDigitVal (c : Char) : Option (Fin 16) :=
  if h : 48 ≤ c.toNat ∧ c.toNat ≤ 57 then some ⟨c.toNat - 48, by omega⟩
  else if h : 97 ≤ c.toNat ∧ c.toNat ≤ 102 then some ⟨c.toNat - 87, by omega⟩
  else if h : 65 ≤ c.toNat ∧ c.toNat ≤ 70 then some ⟨c.toNat - 55, by omega⟩
  else none

def hexEncodeByte (b : Byte) : List Char :=
  [hexDigitChar (b.val / 16), hexDigitChar (b.val % 16)]

def hexEncodeList : List Byte → List Char
  | [] => []
  | b :: bs => hexEncodeByte b ++ hexEncodeList bs

/-- `buffer.toString('hex')`. -/
def hexEncode (bs : List Byte) : String := ⟨hexEncodeList bs⟩

def hexDecodeList : List Char → List Byte
  | c1 :: c2 :: rest =>
    match hexDigitVal c1, hexDigitVal c2 with
    | some h, some l =>
      ⟨h.val * 16 + l.val, by have := h.isLt; have := l.isLt; omega⟩ :: hexDecodeList rest
    | _, _ => []
  | _ => []

/-- `Buffer.from(s, 'hex')`. -/
def hexDecode (s : String) : List Byte := hexDecodeList s.data

/-- `crypto.timingSafeEqual(a, b)`: throws a `RangeError` when the buffers
have different lengths, otherwise returns the equality as a boolean. -/
def timingSafeEqual (a b : List Byte) : Except String Bool :=
  if a.length = b.length then .ok (decide (a = b))
  else .error "Input buffers must have the same byte length"

/-- `UDLAuthenticator.hashPassword` (src/index.ts:119-126): derives the key
with scrypt at key length 64 and hex-encodes hash and salt.  The
randomly-generated-salt case (`salt` argument omitted) is modelled by the
explicit `saltBytes` parameter. -/
def hashPassword (scrypt : String → List Byte → List Byte)
    (password : String) (saltBytes : List Byte) : String × String :=
  (hexEncode (scrypt password saltBytes), hexEncode saltBytes)

/-- `UDLAuthenticator.verifyPassword` (src/index.ts:128-133): hex-decodes the
stored salt and hash, re-derives the key from the candidate password, and
compares with `timingSafeEqual`. -/
def verifyPassword (scrypt : String → List Byte → List Byte)
    (password hash salt : String) : Except String Bool :=
  let saltBuffer := hexDecode salt
  let hashBuffer := hexDecode hash
  let inputHash := scrypt password saltBuffer
  timingSafeEqual hashBuffer inputHash

/-! ## Data model (src/index.ts:65-105) -/

/-- `StoredCredentials` (src/index.ts:72-80).  `classification` is a `String`
because `loadCredentials` returns unvalidated `JSON.parse` output and
`getPermissionsForClassification` takes an arbitrary string (it has a
`default` branch); timestamps are `Nat` milliseconds. -/
structure StoredCredentials where
  username : String
  passwordHash : String
  salt : String
  classification : String
  apiEndpoint : Option String := none
  createdAt : Nat := 0
  lastUsed : Option Nat := none
deriving DecidableEq, Repr

/-- `AuthSession` (src/index.ts:82-90). -/
structure AuthSession where
  sessionId : String
  username : String
  classification : String
  accessToken : Option String := none
  refreshToken : Option String := none
  expiresAt : Nat
  permissions : List String
deriving DecidableEq, Repr

/-- `AuthenticationStatus` (src/index.ts:92-100). -/
structure AuthenticationStatus where
  isAuthenticated : Bool
  username : Option String := none
  classification : Option String := none
  sessionId : Option String := none
  expiresAt : Option Nat := none
  permissions : Option (List String) := none
  lastActivity : Option Nat := none
deriving DecidableEq, Repr

/-- The mutable state of a `UDLAuthenticator` instance plus its backing
credential file: `stored` is the content of `credentials.json` (`none` =
ENOENT), `sessions` the `Map<string, AuthSession>` as an insertion-ordered
association list, `currentSession` the `currentSession` field. -/
structure AuthState where
  stored : Option StoredCredentials := none
  sessions : List (String × AuthSession) := []
  currentSession : Option AuthSession := none
deriving DecidableEq, Repr

/-- `Map.prototype.get`. -/
def mapGet : List (String × AuthSession) → String → Option AuthSession
  | [], _ => none
  | e :: rest, k => if e.1 = k then some e.2 else mapGet rest k

/-- `Map.prototype.set` (replaces in place, appends if the key is new). -/
def mapSet : List (String × AuthSession) → String → AuthSession →
    List (String × AuthSession)
  | [], k, v => [(k, v)]
  | e :: rest, k, v => if e.1 = k then (k, v) :: rest else e :: mapSet rest k v

/-- `Map.prototype.delete` (only the effect on the table; keys are unique in
a JS `Map`, so dropping every binding of `k` is the same as dropping one). -/
def mapDelete : List (String × AuthSession) → String → List (String × AuthSession)
  | [], _ => []
  | e :: rest, k => if e.1 = k then mapDelete rest k else e :: mapDelete rest k

/-- JavaScript truthiness of a possibly-absent string: `undefined` and `""`
are falsy. -/
def jsTruthy : Option String → Bool
  | none => false
  | some s => s ≠ ""

/-! ## Operations of `UDLAuthenticator` -/

/-- `8 * 60 * 60 * 1000` ms (src/index.ts:204, 307). -/
def eightHoursMs : Nat := 8 * 60 * 60 * 1000

/-- `getPermissionsForClassification` (src/index.ts:250-289), verbatim: the
four base permissions plus tier extensions, `default` → base only. -/
def getPermissionsForClassification (classification : String) : List String :=
  let basePermissions := ["catalog:read", "objects:search", "objects:get", "tle:read"]
  if classification = "unclassified" then
    basePermissions ++ ["predictions:read"]
  else if classification = "cui" then
    basePermissions ++ ["predictions:read", "conjunctions:read", "sensors:read",
      "analysis:read"]
  else if classification = "secret" then
    basePermissions ++ ["predictions:read", "conjunctions:read", "sensors:read",
      "analysis:read", "classifications:all", "spacefence:read", "intelligence:read"]
  else
    basePermissions

/-- Clock / randomness inputs of one `authenticateUser` call: the time, the
generated session id, the two tokens minted by the (simulated) identity
provider, and whether the `lastUsed` rewrite of `credentials.json`
(src/index.ts:214, a bare `fs.writeFile`) succeeds. -/
structure AuthEnv where
  now : Nat
  sessionId : String
  accessToken : String
  refreshToken : String
  writeOk : Bool := true

/-- Result of `authenticateWithUDL` (src/index.ts:219-248). -/
structure UDLAuthResult where
  accessToken : String
  refreshToken : String
  permissions : List String

/-- `authenticateWithUDL` (src/index.ts:219-248): the simulated identity
provider mints two tokens and derives the permissions from the stored
classification; its body cannot fail. -/
def authenticateWithUDL (env : AuthEnv) (stored : StoredCredentials) :
    UDLAuthResult :=
  { accessToken := env.accessToken
    refreshToken := env.refreshToken
    permissions := getPermissionsForClassification stored.classification }

/-- `authenticateUser` (src/index.ts:178-217).  Returns the thrown error or
the session, together with the post-call state (mutations made before a
throw persist, as in the source).  Note the order in the source: the session
is stored and made current (lines 208-209) BEFORE the fallible `lastUsed`
file rewrite (line 214). -/
def authenticateUser (scrypt : String → List Byte → List Byte) (env : AuthEnv)
    (st : AuthState) (username password : String) :
    Except String AuthSession × AuthState :=
  match st.stored with
  | none =>
    (.error "No stored credentials found. Please configure UDL credentials first.", st)
  | some stored =>
    if stored.username ≠ username then (.error "Invalid username", st)
    else
      match verifyPassword scrypt password stored.passwordHash stored.salt with
      | .error e => (.error e, st)
      | .ok false => (.error "Invalid password", st)
      | .ok true =>
        let authResult := authenticateWithUDL env stored
        let session : AuthSession :=
          { sessionId := env.sessionId
            username := username
            classification := stored.classification
            accessToken := some authResult.accessToken
            refreshToken := some authResult.refreshToken
            expiresAt := env.now + eightHoursMs
            permissions := authResult.permissions }
        let st1 : AuthState :=
          { st with sessions := mapSet st.sessions env.sessionId session
                    currentSession := some session }
        if env.writeOk then
          (.ok session,
            { st1 with stored := some { stored with lastUsed := some env.now } })
        else
          (.error "Failed to write credentials file", st1)

/-- Clock / randomness inputs of one `refreshSession` call. -/
structure RefreshEnv where
  now : Nat
  newAccessToken : String

/-- `refreshSession` (src/index.ts:291-316). -/
def refreshSession (env : RefreshEnv) (st : AuthState) (sessionId : String) :
    Except String AuthSession × AuthState :=
  match mapGet st.sessions sessionId with
  | none => (.error "Session not found", st)
  | some session =>
    if env.now > session.expiresAt then
      (.error "Session expired", { st with sessions := mapDelete st.sessions sessionId })
    else
      let refreshedSession : AuthSession :=
        { session with accessToken := some env.newAccessToken
                       expiresAt := env.now + eightHoursMs }
      let st1 : AuthState :=
        { st with sessions := mapSet st.sessions sessionId refreshedSession }
      let st2 : AuthState :=
        if st1.currentSession.map (·.sessionId) = some sessionId then
          { st1 with currentSession := some refreshedSession }
        else st1
      (.ok refreshedSession, st2)

/-- `logout` (src/index.ts:318-333).  `sessionId || currentSession?.sessionId`
and the `if (targetSessionId)` / `if (!sessionId || ...)` guards use
JavaScript truthiness, so the empty string behaves like `undefined`. -/
def logout (st : AuthState) (sessionId : Option String) : AuthState :=
  let targetSessionId : Option String :=
    if jsTruthy sessionId then sessionId
    else st.currentSession.map (·.sessionId)
  let st1 : AuthState :=
    if jsTruthy targetSessionId then
      match targetSessionId with
      | some tid =>
        if (mapGet st.sessions tid).isSome then
          { st with sessions := mapDelete st.sessions tid }
        else st
      | none => st
    else st
  if !jsTruthy sessionId ||
      (match st1.currentSession, sessionId with
       | some cur, some s => decide (cur.sessionId = s)
       | _, _ => false) then
    { st1 with currentSession := none }
  else st1

/-- `getCurrentSession` (src/index.ts:341-353): lazily purges an expired
current session through `logout` before reporting it absent. -/
def getCurrentSession (now : Nat) (st : AuthState) :
    Option AuthSession × AuthState :=
  match st.currentSession with
  | none => (none, st)
  | some cur =>
    if now > cur.expiresAt then
      (none, logout st (some cur.sessionId))
    else (some cur, st)

/-- `getAuthenticationStatus` (src/index.ts:355-371). -/
def getAuthenticationStatus (now : Nat) (st : AuthState) :
    AuthenticationStatus × AuthState :=
  match getCurrentSession now st with
  | (none, st1) => ({ isAuthenticated := false }, st1)
  | (some session, st1) =>
    ({ isAuthenticated := true
       username := some session.username
       classification := some session.classification
       sessionId := some session.sessionId
       expiresAt := some session.expiresAt
       permissions := some session.permissions
       lastActivity := some now }, st1)

/-- `validatePermission` (src/index.ts:373-382).  `permission.split(':')[0]`
is the prefix of `permission` before the first `:` (the whole string when
there is no `:`). -/
def validatePermission (now : Nat) (st : AuthState) (permission : String) :
    Bool × AuthState :=
  match getCurrentSession now st with
  | (none, st1) => (false, st1)
  | (some session, st1) =>
    (session.permissions.contains permission ||
       session.permissions.contains "*" ||
       session.permissions.contains (((permission.splitOn ":").headD "") ++ ":*"),
     st1)

/-- `getApiHeaders` (src/index.ts:384-397).  `!session.accessToken` is
JavaScript truthiness, so an empty-string token also fails. -/
def getApiHeaders (now : Nat) (st : AuthState) :
    Except String (List (String × String)) × AuthState :=
  match getCurrentSession now st with
  | (none, st1) => (.error "Not authenticated", st1)
  | (some session, st1) =>
    if jsTruthy session.accessToken then
      match session.accessToken with
      | some tok =>
        (.ok [("Authorization", "Bearer " ++ tok),
              ("X-Classification", session.classification.toUpper),
              ("X-Session-ID", session.sessionId),
              ("Content-Type", "application/json"),
              ("User-Agent", "UDL-MCP-Server/1.0.0")], st1)
      | none => (.error "Not authenticated", st1)
    else (.error "Not authenticated", st1)

/-- `clearStoredCredentials` (src/index.ts:399-408): unlinks the credential
file (ENOENT swallowed); touches nothing in memory. -/
def clearStoredCredentials (st : AuthState) : AuthState :=
  { st with stored := none }

/-! ## State invariants (claim C9) -/

/-- Key coherence of the session table: every entry's session carries the
entry's key as its `sessionId`.  Every table insertion in the source
(src/index.ts:208, 310) inserts a session under its own `sessionId`, so this
holds in every reachable state. -/
def TableInv (st : AuthState) : Prop :=
  ∀ e ∈ st.sessions, e.2.sessionId = e.1

/-- The claimed current-session invariant, weakened by the escape clause the
code forces (see `C9_state_invariant_counterexample`): whenever the
current-session pointer is set, the table maps its `sessionId` to that same
session — unless the current session is already expired at time `t`, in
which case every read path purges it before use. -/
def SessionInv (t : Nat) (st : AuthState) : Prop :=
  ∀ cur, st.currentSession = some cur →
    mapGet st.sessions cur.sessionId = some cur ∨ cur.expiresAt < t

/-! ## Concrete artifacts used by witnesses and counterexamples -/

/-- A stand-in key-derivation function for concrete evaluations: every output
has the real scrypt's key length of 64 bytes, and the two demo passwords get
distinct keys. -/
def demoScrypt (password : String) (_salt : List Byte) : List Byte :=
  if password = "pw" then List.replicate 64 ⟨1, by omega⟩
  else List.replicate 64 ⟨2, by omega⟩

/-- Hex encoding of `demoScrypt "pw" _`: 64 `0x01` bytes. -/
def demoHash : String := hexEncode (List.replicate 64 ⟨1, by omega⟩)

/-- A concrete stored credential record matching password `"pw"` under
`demoScrypt`. -/
def demoStored : StoredCredentials :=
  { username := "alice", passwordHash := demoHash, salt := "",
    classification := "unclassified" }

/-- A concrete environment for an `authenticateUser` call whose file write
succeeds. -/
def demoEnv : AuthEnv :=
  { now := 99, sessionId := "sid9", accessToken := "a9", refreshToken := "r9",
    writeOk := true }

/-- The same call environment, but the `lastUsed` rewrite of
`credentials.json` fails. -/
def demoEnvBad : AuthEnv := { demoEnv with writeOk := false }

/-- The session `authenticateUser` builds from `demoStored` under `demoEnv`
or `demoEnvBad`. -/
def demoIssuedSession : AuthSession :=
  { sessionId := "sid9", username := "alice", classification := "unclassified",
    accessToken := some "a9", refreshToken := some "r9",
    expiresAt := 99 + eightHoursMs,
    permissions := getPermissionsForClassification "unclassified" }

/-- A concrete live session (expires at t = 1000). -/
def demoSession : AuthSession :=
  { sessionId := "sid1", username := "alice", classification := "cui",
    accessToken := some "tok1", refreshToken := some "r1",
    expiresAt := 1000,
    permissions := getPermissionsForClassification "cui" }

/-- A concrete authenticator state whose current session is `demoSession`,
consistently stored in the table. -/
def demoState : AuthState :=
  { stored := some demoStored
    sessions := [("sid1", demoSession)]
    currentSession := some demoSession }

/-! ## Hex round-trip: decoding a hex encoding recovers the bytes -/

theorem hexDigitVal_hexDigitChar (x : Fin 16) :
    hexDigitVal (hexDigitChar x.val) = some x := by revert x; decide

theorem hexDecodeList_append (b : Byte) (rest : List Char) :
    hexDecodeList (hexEncodeByte b ++ rest)
      = b :: hexDecodeList rest := by
  have hdiv : b.val / 16 < 16 := by omega
  have hmod : b.val % 16 < 16 := by omega
  have h1 := hexDigitVal_hexDigitChar ⟨b.val / 16, hdiv⟩
  have h2 := hexDigitVal_hexDigitChar ⟨b.val % 16, hmod⟩
  simp only [hexEncodeByte, List.cons_append, List.nil_append, hexDecodeList, h1, h2]
  congr 1
  apply Fin.ext
  simp only []
  omega

theorem hexDecode_hexEncode (bs : List Byte) :
    hexDecode (hexEncode bs) = bs := by
  show hexDecodeList (hexEncodeList bs) = bs
  induction bs with
  | nil => rfl
  | cons b rest ih =>
    show hexDecodeList (hexEncodeByte b ++ hexEncodeList rest) = b :: rest
    rw [hexDecodeList_append, ih]

/-! ## Association-list (Map) lemmas -/

theorem mapGet_mapSet_self (m : List (String × AuthSession)) (k : String)
    (v : AuthSession) : mapGet (mapSet m k v) k = some v := by
  induction m with
  | nil => simp [mapSet, mapGet]
  | cons e rest ih =>
    by_cases h : e.1 = k
    · simp [mapSet, mapGet, h]
    · simp [mapSet, mapGet, h, ih]

theorem mapGet_mapSet_ne (m : List (String × AuthSession)) (k k' : String)
    (v : AuthSession) (h : k' ≠ k) :
    mapGet (mapSet m k v) k' = mapGet m k' := by
  have hkk' : k ≠ k' := fun h' => h h'.symm
  induction m with
  | nil => simp [mapSet, mapGet, hkk']
  | cons e rest ih =>
    by_cases he : e.1 = k
    · subst he
      simp [mapSet, mapGet, hkk']
    · simp only [mapSet, he, if_false, mapGet, ih]

theorem mapGet_mapDelete_self (m : List (String × AuthSession)) (k : String) :
    mapGet (mapDelete m k) k = none := by
  induction m with
  | nil => simp [mapDelete, mapGet]
  | cons e rest ih =>
    by_cases h : e.1 = k
    · simpa [mapDelete, h] using ih
    · simpa [mapDelete, mapGet, h] using ih

theorem mapGet_mapDelete_ne (m : List (String × AuthSession)) (k k' : String)
    (h : k' ≠ k) : mapGet (mapDelete m k) k' = mapGet m k' := by
  have hkk' : k ≠ k' := fun h' => h h'.symm
  induction m with
  | nil => simp [mapDelete]
  | cons e rest ih =>
    by_cases he : e.1 = k
    · subst he
      simp [mapDelete, mapGet, hkk', ih]
    · simp only [mapDelete, he, if_false, mapGet, ih]

theorem mapDelete_eq_self (m : List (String × AuthSession)) (k : String)
    (h : mapGet m k = none) : mapDelete m k = m := by
  induction m with
  | nil => rfl
  | cons e rest ih =>
    by_cases he : e.1 = k
    · simp [mapGet, he] at h
    · simp [mapGet, he] at h
      simp [mapDelete, he, ih h]

/-- Logging out the current session (by its own, non-empty id) deletes it
from the table and clears the pointer. -/
theorem logout_current_self (st : AuthState) (s : AuthSession)
    (hcur : st.currentSession = some s) (hsid : s.sessionId ≠ "") :
    logout st (some s.sessionId)
      = { st with sessions := mapDelete st.sessions s.sessionId
                  currentSession := none } := by
  by_cases hm : (mapGet st.sessions s.sessionId).isSome
  · simp [logout, jsTruthy, hsid, hcur, hm]
  · simp at hm
    simp [logout, jsTruthy, hsid, hcur, hm, mapDelete_eq_self _ _ hm]

/-- `demoScrypt` always produces the real scrypt's 64-byte key length. -/
theorem demoScrypt_len : ∀ p s, (demoScrypt p s).length = 64 := by
  intro p s
  by_cases h : p = "pw" <;> simp [demoScrypt, h]

/-! ## Invariant-preservation lemmas (claim C9) -/

theorem SessionInv.mono {t t' : Nat} (h : t ≤ t') {st : AuthState}
    (hinv : SessionInv t st) : SessionInv t' st :=
  fun cur hc => (hinv cur hc).imp id (fun hlt => lt_of_lt_of_le hlt h)

theorem tableInv_get {m : List (String × AuthSession)}
    (htab : ∀ e ∈ m, e.2.sessionId = e.1) {k : String} {s : AuthSession}
    (h : mapGet m k = some s) : s.sessionId = k := by
  induction m with
  | nil => cases h
  | cons e rest ih =>
    by_cases he : e.1 = k
    · rw [mapGet, if_pos he] at h
      cases h
      rw [htab e (List.mem_cons_self e rest)]
      exact he
    · rw [mapGet, if_neg he] at h
      exact ih (fun e' he' => htab e' (List.mem_cons_of_mem e he')) h

theorem tableInv_mapSet {m : List (String × AuthSession)} {k : String}
    {v : AuthSession} (htab : ∀ e ∈ m, e.2.sessionId = e.1)
    (hv : v.sessionId = k) : ∀ e ∈ mapSet m k v, e.2.sessionId = e.1 := by
  induction m with
  | nil =>
    intro e he
    simp [mapSet] at he
    simp [he, hv]
  | cons e0 rest ih =>
    intro e he
    by_cases h0 : e0.1 = k
    · rw [mapSet, if_pos h0] at he
      rcases List.mem_cons.mp he with h | h
      · simp [h, hv]
      · exact htab e (List.mem_cons_of_mem e0 h)
    · rw [mapSet, if_neg h0] at he
      rcases List.mem_cons.mp he with h | h
      · exact h ▸ htab e0 (List.mem_cons_self e0 rest)
      · exact ih (fun e' he' => htab e' (List.mem_cons_of_mem e0 he')) e h

theorem mem_of_mem_mapDelete {m : List (String × AuthSession)} {k : String}
    {e : String × AuthSession} (h : e ∈ mapDelete m k) : e ∈ m := by
  induction m with
  | nil => cases h
  | cons e0 rest ih =>
    by_cases h0 : e0.1 = k
    · rw [mapDelete, if_pos h0] at h
      exact List.mem_cons_of_mem e0 (ih h)
    · rw [mapDelete, if_neg h0] at h
      rcases List.mem_cons.mp h with h | h
      · exact h ▸ List.mem_cons_self e0 rest
      · exact List.mem_cons_of_mem e0 (ih h)

theorem logout_keeps_current (st : AuthState) (sid? : Option String)
    (cur : AuthSession) (h : (logout st sid?).currentSession = some cur) :
    st.currentSession = some cur ∧
    mapGet (logout st sid?).sessions cur.sessionId
      = mapGet st.sessions cur.sessionId := by
  cases hj : jsTruthy sid? with
  | false => simp [logout, hj] at h
  | true =>
    cases sid? with
    | none => simp [jsTruthy] at hj
    | some s0 =>
      cases hc : st.currentSession with
      | none =>
        by_cases hm : (mapGet st.sessions s0).isSome <;>
          simp [logout, hj, hc, hm] at h
      | some cur' =>
        by_cases hcs : cur'.sessionId = s0
        · by_cases hm : (mapGet st.sessions s0).isSome <;>
            simp [logout, hj, hc, hcs, hm] at h
        · by_cases hm : (mapGet st.sessions s0).isSome
          · simp [logout, hj, hc, hcs, hm] at h ⊢
            subst h
            exact ⟨rfl, mapGet_mapDelete_ne _ _ _ hcs⟩
          · simp [logout, hj, hc, hcs, hm] at h ⊢
            exact h

theorem logout_sessions_cases (st : AuthState) (sid? : Option String) :
    (logout st sid?).sessions = st.sessions ∨
    ∃ k, (logout st sid?).sessions = mapDelete st.sessions k := by
  cases hj : jsTruthy sid? with
  | false =>
    cases hc : st.currentSession with
    | none => left; simp [logout, hj, hc]
    | some cur =>
      by_cases hcs : jsTruthy (some cur.sessionId)
      · by_cases hm : (mapGet st.sessions cur.sessionId).isSome
        · right; exact ⟨cur.sessionId, by simp [logout, hj, hc, hcs, hm]⟩
        · left; simp [logout, hj, hc, hcs, hm]
      · left; simp [logout, hj, hc, hcs]
  | true =>
    cases sid? with
    | none => simp [jsTruthy] at hj
    | some s0 =>
      cases hc : st.currentSession with
      | none =>
        by_cases hm : (mapGet st.sessions s0).isSome
        · right; exact ⟨s0, by simp [logout, hj, hc, hm]⟩
        · left; simp [logout, hj, hc, hm]
      | some cur' =>
        by_cases hcs : cur'.sessionId = s0
        · by_cases hm : (mapGet st.sessions s0).isSome
          · right; exact ⟨s0, by simp [logout, hj, hc, hcs, hm]⟩
          · left; simp [logout, hj, hc, hcs, hm]
        · by_cases hm : (mapGet st.sessions s0).isSome
          · right; exact ⟨s0, by simp [logout, hj, hc, hcs, hm]⟩
          · left; simp [logout, hj, hc, hcs, hm]

theorem logout_preserves_inv (t now : Nat) (hle : t ≤ now) (st : AuthState)
    (htab : TableInv st) (hinv : SessionInv t st) (sid? : Option String) :
    TableInv (logout st sid?) ∧ SessionInv now (logout st sid?) := by
  constructor
  · rcases logout_sessions_cases st sid? with h | ⟨k, h⟩
    · intro e he
      rw [h] at he
      exact htab e he
    · intro e he
      rw [h] at he
      exact htab e (mem_of_mem_mapDelete he)
  · intro cur hc
    obtain ⟨hcur, hget⟩ := logout_keeps_current st sid? cur hc
    rcases hinv cur hcur with hl | hr
    · left
      rw [hget]
      exact hl
    · right
      omega

theorem getCurrentSession_preserves_inv (t now : Nat) (hle : t ≤ now)
    (st : AuthState) (htab : TableInv st) (hinv : SessionInv t st) :
    TableInv (getCurrentSession now st).2 ∧
    SessionInv now (getCurrentSession now st).2 := by
  cases hc : st.currentSession with
  | none =>
    simp only [getCurrentSession, hc]
    exact ⟨htab, hinv.mono hle⟩
  | some cur =>
    by_cases hexp : now > cur.expiresAt
    · simp only [getCurrentSession, hc, if_pos hexp]
      exact logout_preserves_inv t now hle st htab hinv (some cur.sessionId)
    · simp only [getCurrentSession, hc, if_neg hexp]
      exact ⟨htab, hinv.mono hle⟩

theorem refreshSession_preserves_inv (t : Nat) (env : RefreshEnv)
    (hle : t ≤ env.now) (st : AuthState) (htab : TableInv st)
    (hinv : SessionInv t st) (sid : String) :
    TableInv (refreshSession env st sid).2 ∧
    SessionInv env.now (refreshSession env st sid).2 := by
  cases hm : mapGet st.sessions sid with
  | none =>
    simp only [refreshSession, hm]
    exact ⟨htab, hinv.mono hle⟩
  | some session =>
    by_cases hexp : env.now > session.expiresAt
    · constructor
      · intro e he
        simp only [refreshSession, hm, if_pos hexp] at he
        exact htab e (mem_of_mem_mapDelete he)
      · intro cur hc
        simp only [refreshSession, hm, if_pos hexp] at hc
        rcases hinv cur hc with hl | hr
        · by_cases hcs : cur.sessionId = sid
          · right
            rw [hcs, hm] at hl
            have hcur : session = cur := Option.some.inj hl
            subst hcur
            omega
          · left
            simp only [refreshSession, hm, if_pos hexp]
            rw [mapGet_mapDelete_ne _ _ _ hcs]
            exact hl
        · right
          omega
    · have hkey : session.sessionId = sid := tableInv_get htab hm
      by_cases hcm : st.currentSession.map (·.sessionId) = some sid
      · constructor
        · intro e he
          simp only [refreshSession, hm, if_neg hexp, hcm, ite_true] at he
          exact tableInv_mapSet htab (by simp [hkey]) e he
        · intro cur hc
          simp only [refreshSession, hm, if_neg hexp, hcm, ite_true] at hc
          left
          simp only [refreshSession, hm, if_neg hexp, hcm, ite_true]
          obtain rfl := Option.some.inj hc
          simpa [hkey] using mapGet_mapSet_self st.sessions sid
            { session with accessToken := some env.newAccessToken
                           expiresAt := env.now + eightHoursMs }
      · constructor
        · intro e he
          simp only [refreshSession, hm, if_neg hexp, hcm, if_neg hcm] at he
          exact tableInv_mapSet htab (by simp [hkey]) e he
        · intro cur hc
          simp only [refreshSession, hm, if_neg hexp, if_neg hcm] at hc
          have hne : cur.sessionId ≠ sid := by
            intro h
            apply hcm
            rw [hc]
            simp [h]
          rcases hinv cur hc with hl | hr
          · left
            simp only [refreshSession, hm, if_neg hexp, if_neg hcm]
            rw [mapGet_mapSet_ne _ _ _ _ hne]
            exact hl
          · right
            omega

theorem authenticateUser_preserves_inv (t : Nat)
    (scrypt : String → List Byte → List Byte) (env : AuthEnv)
    (hle : t ≤ env.now) (st : AuthState) (htab : TableInv st)
    (hinv : SessionInv t st) (u p : String) :
    TableInv (authenticateUser scrypt env st u p).2 ∧
    SessionInv env.now (authenticateUser scrypt env st u p).2 := by
  cases hst : st.stored with
  | none =>
    simp only [authenticateUser, hst]
    exact ⟨htab, hinv.mono hle⟩
  | some stored =>
    by_cases hu : stored.username ≠ u
    · simp only [authenticateUser, hst, if_pos hu]
      exact ⟨htab, hinv.mono hle⟩
    · cases hv : verifyPassword scrypt p stored.passwordHash stored.salt with
      | error e =>
        simp only [authenticateUser, hst, if_neg hu, hv]
        exact ⟨htab, hinv.mono hle⟩
      | ok b =>
        cases b with
        | false =>
          simp only [authenticateUser, hst, if_neg hu, hv]
          exact ⟨htab, hinv.mono hle⟩
        | true =>
          by_cases hw : env.writeOk
          · constructor
            · intro e' he'
              simp only [authenticateUser, hst, if_neg hu, hv, hw, if_true] at he'
              refine tableInv_mapSet htab ?_ e' he'
              rfl
            · intro cur hc
              simp only [authenticateUser, hst, if_neg hu, hv, hw, if_true] at hc
              left
              simp only [authenticateUser, hst, if_neg hu, hv, hw, if_true]
              obtain rfl := Option.some.inj hc
              exact mapGet_mapSet_self st.sessions env.sessionId _
          · constructor
            · intro e' he'
              simp only [authenticateUser, hst, if_neg hu, hv, hw] at he'
              refine tableInv_mapSet htab ?_ e' he'
              rfl
            · intro cur hc
              simp only [authenticateUser, hst, if_neg hu, hv, hw] at hc
              left
              simp only [authenticateUser, hst, if_neg hu, hv, hw]
              obtain rfl := Option.some.inj hc
              exact mapGet_mapSet_self st.sessions env.sessionId _

/-! ## Claims -/

/-- C1, counterexample: the claim says an unknown classification string
yields the unclassified set, which contains `predictions:read`; but
`getPermissionsForClassification "invalid"` takes the `default` branch and
returns only the four base permissions, without `predictions:read`. -/
theorem C1_permission_catalog_counterexample :
    ¬ ("predictions:read" ∈ getPermissionsForClassification "invalid") ∧
    "predictions:read" ∈ getPermissionsForClassification "unclassified" := by decide

/-- C1 (amended): the permission catalog returns, as a set, exactly the
spec's table for the three known tiers — `unclassified` is the five-element
set, `cui` adds `{conjunctions:read, sensors:read, analysis:read}`, `secret`
further adds `{classifications:all, spacefence:read, intelligence:read}` —
but an unknown or unrecognized classification string yields only the four
common base permissions `{catalog:read, objects:search, objects:get,
tle:read}`, a strict subset of the unclassified set (still fail-safe, but
missing `predictions:read`). -/
theorem C1_permission_catalog (c : String)
    (h1 : c ≠ "unclassified") (h2 : c ≠ "cui") (h3 : c ≠ "secret") :
    (∀ x, x ∈ getPermissionsForClassification "unclassified" ↔
       x ∈ ["catalog:read", "objects:search", "objects:get", "tle:read",
            "predictions:read"]) ∧
    (∀ x, x ∈ getPermissionsForClassification "cui" ↔
       (x ∈ getPermissionsForClassification "unclassified" ∨
        x ∈ ["conjunctions:read", "sensors:read", "analysis:read"])) ∧
    (∀ x, x ∈ getPermissionsForClassification "secret" ↔
       (x ∈ getPermissionsForClassification "cui" ∨
        x ∈ ["classifications:all", "spacefence:read", "intelligence:read"])) ∧
    getPermissionsForClassification c
      = ["catalog:read", "objects:search", "objects:get", "tle:read"] := by
  refine ⟨?_, ?_, ?_, ?_⟩
  · intro x
    simp [getPermissionsForClassification]
  · intro x
    simp [getPermissionsForClassification]
    tauto
  · intro x
    simp [getPermissionsForClassification]
    tauto
  · simp [getPermissionsForClassification, h1, h2, h3]

/-- C1, witness: the amended default-branch behaviour at the concrete
unknown classification `"topsecret"`. -/
theorem C1_permission_catalog_witness :
    getPermissionsForClassification "topsecret"
      = ["catalog:read", "objects:search", "objects:get", "tle:read"] :=
  (C1_permission_catalog "topsecret" (by decide) (by decide) (by decide)).2.2.2

/-- C2: `authenticateUser` fails with the no-credentials error when no
record is stored; with `Invalid username` when the stored username differs;
with `Invalid password` when the username matches but verification rejects;
and for matching credentials (and a successful `lastUsed` file rewrite, the
I/O step whose failure is claim C3's subject) it succeeds with
`expiresAt = now + 8h`, the final state holding the record with `lastUsed`
set to the call time. -/
theorem C2_authenticateUser_cases (scrypt : String → List Byte → List Byte)
    (env : AuthEnv) (st : AuthState) (username password : String) :
    (st.stored = none →
      authenticateUser scrypt env st username password
        = (.error "No stored credentials found. Please configure UDL credentials first.",
           st)) ∧
    (∀ stored, st.stored = some stored → stored.username ≠ username →
      authenticateUser scrypt env st username password
        = (.error "Invalid username", st)) ∧
    (∀ stored, st.stored = some stored → stored.username = username →
      verifyPassword scrypt password stored.passwordHash stored.salt = .ok false →
      authenticateUser scrypt env st username password
        = (.error "Invalid password", st)) ∧
    (∀ stored, st.stored = some stored → stored.username = username →
      verifyPassword scrypt password stored.passwordHash stored.salt = .ok true →
      env.writeOk = true →
      ∃ session,
        authenticateUser scrypt env st username password
          = (.ok session,
             { stored := some { stored with lastUsed := some env.now }
               sessions := mapSet st.sessions env.sessionId session
               currentSession := some session }) ∧
        session.expiresAt = env.now + eightHoursMs) := by
  refine ⟨?_, ?_, ?_, ?_⟩
  · intro h
    simp [authenticateUser, h]
  · intro stored hst hne
    simp [authenticateUser, hst, hne]
  · intro stored hst heq hvf
    simp [authenticateUser, hst, heq, hvf]
  · intro stored hst heq hvf hw
    refine ⟨{ sessionId := env.sessionId, username := username,
              classification := stored.classification,
              accessToken := some env.accessToken,
              refreshToken := some env.refreshToken,
              expiresAt := env.now + eightHoursMs,
              permissions := getPermissionsForClassification stored.classification },
            ?_, rfl⟩
    simp [authenticateUser, authenticateWithUDL, hst, heq, hvf, hw]

/-- C2, witness: the three non-trivial branches at concrete inputs — wrong
username, wrong password, and a successful authentication against
`demoStored` under `demoScrypt`. -/
theorem C2_authenticateUser_cases_witness :
    (authenticateUser demoScrypt demoEnv { stored := some demoStored } "bob" "pw"
        = (.error "Invalid username", { stored := some demoStored })) ∧
    (authenticateUser demoScrypt demoEnv { stored := some demoStored } "alice" "xx"
        = (.error "Invalid password", { stored := some demoStored })) ∧
    (∃ session,
      authenticateUser demoScrypt demoEnv { stored := some demoStored } "alice" "pw"
        = (.ok session,
           { stored := some { demoStored with lastUsed := some 99 }
             sessions := mapSet [] "sid9" session
             currentSession := some session }) ∧
      session.expiresAt = 99 + eightHoursMs) :=
  ⟨(C2_authenticateUser_cases demoScrypt demoEnv { stored := some demoStored }
      "bob" "pw").2.1 demoStored rfl (by decide),
   (C2_authenticateUser_cases demoScrypt demoEnv { stored := some demoStored }
      "alice" "xx").2.2.1 demoStored rfl rfl rfl,
   (C2_authenticateUser_cases demoScrypt demoEnv { stored := some demoStored }
      "alice" "pw").2.2.2 demoStored rfl rfl rfl rfl⟩

/-- C3 (code bug): when the `lastUsed` rewrite of `credentials.json` fails
after a successful password verification, the claim (and §7 of the spec)
requires the session table and current-session pointer to be unchanged; but
the source commits the session (src/index.ts:208-209) before the fallible
`fs.writeFile` (src/index.ts:214), so the failing call leaves the new
session committed and current. -/
theorem C3_partial_commit_on_write_failure :
    authenticateUser demoScrypt demoEnvBad { stored := some demoStored } "alice" "pw"
      = (.error "Failed to write credentials file",
         { stored := some demoStored
           sessions := [("sid9", demoIssuedSession)]
           currentSession := some demoIssuedSession }) ∧
    mapGet (authenticateUser demoScrypt demoEnvBad { stored := some demoStored }
        "alice" "pw").2.sessions "sid9" = some demoIssuedSession ∧
    (authenticateUser demoScrypt demoEnvBad { stored := some demoStored }
        "alice" "pw").2.currentSession ≠ none := by
  refine ⟨rfl, rfl, by decide⟩

/-- C4: a current session past `expiresAt` is treated as absent and purged
on every read path — `getCurrentSession` returns `none`, clears the pointer
and removes the table entry; `getAuthenticationStatus` reports
unauthenticated; `refreshSession` on its id fails with `Session expired`
and removes the entry; and the session is reachable via `getCurrentSession`
exactly while `now` is not past `expiresAt`.  (`s.sessionId ≠ ""` because a
real session id is 64 hex characters; the empty string would be falsy in
`logout`'s JavaScript guards.) -/
theorem C4_session_expiry (now : Nat) (tok : String) (st : AuthState)
    (s : AuthSession) (hcur : st.currentSession = some s)
    (hsid : s.sessionId ≠ "") :
    (now > s.expiresAt →
      (getCurrentSession now st).1 = none ∧
      (getCurrentSession now st).2.currentSession = none ∧
      mapGet (getCurrentSession now st).2.sessions s.sessionId = none ∧
      (getAuthenticationStatus now st).1.isAuthenticated = false) ∧
    (now > s.expiresAt → mapGet st.sessions s.sessionId = some s →
      (refreshSession ⟨now, tok⟩ st s.sessionId).1 = .error "Session expired" ∧
      mapGet (refreshSession ⟨now, tok⟩ st s.sessionId).2.sessions s.sessionId
        = none) ∧
    ((getCurrentSession now st).1 = some s ↔ ¬ now > s.expiresAt) := by
  refine ⟨?_, ?_, ?_⟩
  · intro h
    have hgc : getCurrentSession now st
        = (none, { st with sessions := mapDelete st.sessions s.sessionId
                           currentSession := none }) := by
      simp [getCurrentSession, hcur, h, logout_current_self st s hcur hsid]
    refine ⟨by simp [hgc], by simp [hgc], ?_, ?_⟩
    · simp [hgc, mapGet_mapDelete_self]
    · simp [getAuthenticationStatus, hgc]
  · intro h htab
    refine ⟨by simp [refreshSession, htab, h], ?_⟩
    simp [refreshSession, htab, h, mapGet_mapDelete_self]
  · constructor
    · intro hgc
      intro h
      simp [getCurrentSession, hcur, h, logout_current_self st s hcur hsid] at hgc
    · intro h
      simp [getCurrentSession, hcur, h]

/-- C4, witness: `demoSession` (expiry 1000, current in `demoState`) is
absent from every read path at t = 2000 and reachable at t = 999. -/
theorem C4_session_expiry_witness :
    (getCurrentSession 2000 demoState).1 = none ∧
    (getAuthenticationStatus 2000 demoState).1.isAuthenticated = false ∧
    (refreshSession ⟨2000, "t2"⟩ demoState "sid1").1 = .error "Session expired" ∧
    mapGet (refreshSession ⟨2000, "t2"⟩ demoState "sid1").2.sessions "sid1"
      = none ∧
    (getCurrentSession 999 demoState).1 = some demoSession :=
  ⟨((C4_session_expiry 2000 "t2" demoState demoSession rfl (by decide)).1
      (by decide)).1,
   ((C4_session_expiry 2000 "t2" demoState demoSession rfl (by decide)).1
      (by decide)).2.2.2,
   ((C4_session_expiry 2000 "t2" demoState demoSession rfl (by decide)).2.1
      (by decide) rfl).1,
   ((C4_session_expiry 2000 "t2" demoState demoSession rfl (by decide)).2.1
      (by decide) rfl).2,
   (C4_session_expiry 999 "t2" demoState demoSession rfl (by decide)).2.2.mpr
      (by decide)⟩

/-- C5: `validatePermission p` returns false when no valid current session
exists, and otherwise returns true exactly when the session's permission set
contains the exact string `p`, the global wildcard `*`, or the prefix
wildcard built from `p`'s namespace (the part of `p` before the first `:`,
suffixed with `:*`). -/
theorem C5_validatePermission (now : Nat) (st : AuthState) (p : String) :
    ((getCurrentSession now st).1 = none →
      (validatePermission now st p).1 = false) ∧
    (∀ s, (getCurrentSession now st).1 = some s →
      ((validatePermission now st p).1 = true ↔
        (p ∈ s.permissions ∨ "*" ∈ s.permissions ∨
         ((p.splitOn ":").headD "" ++ ":*") ∈ s.permissions))) := by
  constructor
  · intro h
    cases hq : getCurrentSession now st with
    | mk r st' =>
      rw [hq] at h
      simp at h
      subst h
      simp [validatePermission, hq]
  · intro s h
    cases hq : getCurrentSession now st with
    | mk r st' =>
      rw [hq] at h
      simp at h
      subst h
      simp [validatePermission, hq]
      tauto

/-- C5, witness: `objects:get` is granted to the live `cui` session of
`demoState` at t = 500 (it inherits the base set), and denied at t = 2000
when the session has expired and no valid session exists. -/
theorem C5_validatePermission_witness :
    (validatePermission 2000 demoState "objects:get").1 = false ∧
    (validatePermission 500 demoState "objects:get").1 = true :=
  ⟨(C5_validatePermission 2000 demoState "objects:get").1 rfl,
   ((C5_validatePermission 500 demoState "objects:get").2 demoSession rfl).mpr
     (by decide)⟩

/-- C6: a successful refresh of a live session changes only `accessToken`
(to the newly minted token) and `expiresAt` (to the refresh time plus 8
hours); `sessionId`, `refreshToken`, `username`, `classification` and
`permissions` are unchanged. -/
theorem C6_refresh_frame (env : RefreshEnv) (st : AuthState) (sid : String)
    (s : AuthSession) (htab : mapGet st.sessions sid = some s)
    (hlive : ¬ env.now > s.expiresAt) :
    ∃ s', (refreshSession env st sid).1 = .ok s' ∧
      s'.accessToken = some env.newAccessToken ∧
      s'.expiresAt = env.now + eightHoursMs ∧
      s'.sessionId = s.sessionId ∧
      s'.refreshToken = s.refreshToken ∧
      s'.username = s.username ∧
      s'.classification = s.classification ∧
      s'.permissions = s.permissions := by
  refine ⟨{ s with accessToken := some env.newAccessToken
                   expiresAt := env.now + eightHoursMs },
          ?_, rfl, rfl, rfl, rfl, rfl, rfl, rfl⟩
  simp [refreshSession, htab, hlive]

/-- C6, witness: refreshing the live `demoSession` at t = 500 with token
`newtok`. -/
theorem C6_refresh_frame_witness :
    ∃ s', (refreshSession ⟨500, "newtok"⟩ demoState "sid1").1 = .ok s' ∧
      s'.accessToken = some "newtok" ∧
      s'.expiresAt = 500 + eightHoursMs ∧
      s'.sessionId = demoSession.sessionId ∧
      s'.refreshToken = demoSession.refreshToken ∧
      s'.username = demoSession.username ∧
      s'.classification = demoSession.classification ∧
      s'.permissions = demoSession.permissions :=
  C6_refresh_frame ⟨500, "newtok"⟩ demoState "sid1" demoSession rfl (by decide)

/-- C7: verifying a password against its own hash/salt pair always succeeds;
and verifying `P1` against the hash of `P2` (same salt) returns false
whenever the KDF outputs for `P1` and `P2` differ — the event the claim
calls "overwhelming probability", since for distinct passwords a
collision-resistant scrypt yields equal 64-byte keys only with negligible
probability.  `hlen` records that scrypt is called with key length 64. -/
theorem C7_hash_verify_roundtrip (scrypt : String → List Byte → List Byte)
    (hlen : ∀ p s, (scrypt p s).length = 64)
    (P P1 P2 : String) (salt salt2 : List Byte) :
    verifyPassword scrypt P (hashPassword scrypt P salt).1
        (hashPassword scrypt P salt).2 = .ok true ∧
    (scrypt P1 salt2 ≠ scrypt P2 salt2 →
      verifyPassword scrypt P1 (hashPassword scrypt P2 salt2).1
          (hashPassword scrypt P2 salt2).2 = .ok false) := by
  constructor
  · simp [verifyPassword, hashPassword, hexDecode_hexEncode, timingSafeEqual]
  · intro hne
    simp [verifyPassword, hashPassword, hexDecode_hexEncode, timingSafeEqual,
      hlen]
    exact fun h => hne h.symm

/-- C7, witness: under `demoScrypt` (distinct keys for `"pw"` and
`"other"`), the right password verifies and the wrong one is rejected. -/
theorem C7_hash_verify_roundtrip_witness :
    verifyPassword demoScrypt "pw" (hashPassword demoScrypt "pw" [⟨5, by omega⟩]).1
        (hashPassword demoScrypt "pw" [⟨5, by omega⟩]).2 = .ok true ∧
    verifyPassword demoScrypt "pw" (hashPassword demoScrypt "other" [⟨5, by omega⟩]).1
        (hashPassword demoScrypt "other" [⟨5, by omega⟩]).2 = .ok false :=
  ⟨(C7_hash_verify_roundtrip demoScrypt demoScrypt_len "pw" "pw" "other"
      [⟨5, by omega⟩] [⟨5, by omega⟩]).1,
   (C7_hash_verify_roundtrip demoScrypt demoScrypt_len "pw" "pw" "other"
      [⟨5, by omega⟩] [⟨5, by omega⟩]).2 (by decide)⟩

/-- C8: for any password and salt string, `verifyPassword` returns a boolean
whenever the stored hash is a well-formed hex encoding of the KDF's 64-byte
output; and it throws (the `timingSafeEqual` RangeError) only when the
stored hash data is malformed — i.e. does not decode to 64 bytes.  (A
malformed salt alone never makes it throw: Node's hex decoder truncates and
scrypt accepts any salt, as the witness shows with salt `"zz"`.) -/
theorem C8_verify_no_throw (scrypt : String → List Byte → List Byte)
    (hlen : ∀ p s, (scrypt p s).length = 64) (password hash salt : String) :
    ((hexDecode hash).length = 64 →
      ∃ b, verifyPassword scrypt password hash salt = .ok b) ∧
    (∀ e, verifyPassword scrypt password hash salt = .error e →
      (hexDecode hash).length ≠ 64) := by
  constructor
  · intro h
    refine ⟨decide (hexDecode hash = scrypt password (hexDecode salt)), ?_⟩
    simp [verifyPassword, timingSafeEqual, h, hlen]
  · intro e he hl
    simp [verifyPassword, timingSafeEqual, hl, hlen] at he

/-- C8, witness: a wrong guess against the well-formed 128-hex-char
`demoHash` with a malformed salt string still returns a boolean. -/
theorem C8_verify_no_throw_witness :
    ∃ b, verifyPassword demoScrypt "guess" demoHash "zz" = .ok b :=
  (C8_verify_no_throw demoScrypt demoScrypt_len "guess" demoHash "zz").1
    (by decide)

/-- C9 (amended): the claimed invariant fails on `refreshSession`'s expired
path (see the counterexample), which deletes the table entry but leaves the
current-session pointer dangling; what every operation does preserve —
given a clock that never goes backwards — is the pair: (i) `TableInv`,
every table entry's session carries the entry's key as its `sessionId`, and
(ii) `SessionInv`, the current-session pointer, when set, refers to the
session stored in the table under its `sessionId` unless that session is
already expired (and is then purged by every read path before use). -/
theorem C9_state_invariant (t : Nat) (st : AuthState) (htab : TableInv st)
    (hinv : SessionInv t st) :
    (∀ scrypt (env : AuthEnv) u p, t ≤ env.now →
      TableInv (authenticateUser scrypt env st u p).2 ∧
      SessionInv env.now (authenticateUser scrypt env st u p).2) ∧
    (∀ (env : RefreshEnv) sid, t ≤ env.now →
      TableInv (refreshSession env st sid).2 ∧
      SessionInv env.now (refreshSession env st sid).2) ∧
    (∀ sid? now, t ≤ now →
      TableInv (logout st sid?) ∧ SessionInv now (logout st sid?)) ∧
    (∀ now, t ≤ now →
      TableInv (getCurrentSession now st).2 ∧
      SessionInv now (getCurrentSession now st).2) :=
  ⟨fun scrypt env u p hle =>
      authenticateUser_preserves_inv t scrypt env hle st htab hinv u p,
   fun env sid hle => refreshSession_preserves_inv t env hle st htab hinv sid,
   fun sid? now hle => logout_preserves_inv t now hle st htab hinv sid?,
   fun now hle => getCurrentSession_preserves_inv t now hle st htab hinv⟩

/-- C9, counterexample: starting from a state satisfying the claimed
invariant (current session `demoSession` stored in the table), refreshing
the expired current session deletes the table entry (src/index.ts:298) but
never clears `currentSession`, leaving the pointer dangling. -/
theorem C9_state_invariant_counterexample :
    demoState.currentSession = some demoSession ∧
    mapGet demoState.sessions demoSession.sessionId = some demoSession ∧
    (refreshSession ⟨2000, "t9"⟩ demoState "sid1").2.currentSession
      = some demoSession ∧
    mapGet (refreshSession ⟨2000, "t9"⟩ demoState "sid1").2.sessions
      demoSession.sessionId = none :=
  ⟨rfl, rfl, rfl, rfl⟩

/-- C9, witness: preservation across the invariant-breaking call itself —
after the expired refresh, the weakened pair of invariants still holds at
t = 2000 (the dangling current session is expired). -/
theorem C9_state_invariant_witness :
    TableInv (refreshSession ⟨2000, "t9"⟩ demoState "sid1").2 ∧
    SessionInv 2000 (refreshSession ⟨2000, "t9"⟩ demoState "sid1").2 :=
  (C9_state_invariant 0 demoState
      (by
        intro e he
        simp only [demoState, List.mem_singleton] at he
        subst he
        rfl)
      (by
        intro cur hc
        simp only [demoState] at hc
        obtain rfl := Option.some.inj hc
        exact Or.inl rfl)).2.1 ⟨2000, "t9"⟩ "sid1" (by omega)

/-- C10: `clearStoredCredentials` deletes only the persisted credential
record; the in-memory session table and the current-session pointer are
untouched, so every session-based read path (`getAuthenticationStatus`,
`validatePermission`, `getApiHeaders`) gives the same answer after the
clear, and a valid current session still reports authenticated. -/
theorem C10_clear_credentials_frame (now : Nat) (st : AuthState) (p : String) :
    (clearStoredCredentials st).stored = none ∧
    (clearStoredCredentials st).sessions = st.sessions ∧
    (clearStoredCredentials st).currentSession = st.currentSession ∧
    (getAuthenticationStatus now (clearStoredCredentials st)).1
      = (getAuthenticationStatus now st).1 ∧
    (validatePermission now (clearStoredCredentials st) p).1
      = (validatePermission now st p).1 ∧
    (getApiHeaders now (clearStoredCredentials st)).1
      = (getApiHeaders now st).1 ∧
    (∀ s, (getCurrentSession now st).1 = some s →
      (getAuthenticationStatus now (clearStoredCredentials st)).1.isAuthenticated
        = true) := by
  refine ⟨rfl, rfl, rfl, ?_, ?_, ?_, ?_⟩
  · cases hc : st.currentSession with
    | none => simp [getAuthenticationStatus, getCurrentSession,
        clearStoredCredentials, hc]
    | some cur =>
      by_cases hexp : now > cur.expiresAt <;>
        simp [getAuthenticationStatus, getCurrentSession,
          clearStoredCredentials, hc, hexp]
  · cases hc : st.currentSession with
    | none => simp [validatePermission, getCurrentSession,
        clearStoredCredentials, hc]
    | some cur =>
      by_cases hexp : now > cur.expiresAt <;>
        simp [validatePermission, getCurrentSession,
          clearStoredCredentials, hc, hexp]
  · cases hc : st.currentSession with
    | none => simp [getApiHeaders, getCurrentSession,
        clearStoredCredentials, hc]
    | some cur =>
      by_cases hexp : now > cur.expiresAt
      · simp [getApiHeaders, getCurrentSession, clearStoredCredentials, hc, hexp]
      · cases ht : cur.accessToken with
        | none =>
          simp [getApiHeaders, getCurrentSession, clearStoredCredentials,
            hc, hexp, ht]
        | some tok =>
          by_cases hj : jsTruthy (some tok) = true <;>
            simp [getApiHeaders, getCurrentSession, clearStoredCredentials,
              hc, hexp, ht, hj]
  · intro s hs
    cases hc : st.currentSession with
    | none => simp [getCurrentSession, hc] at hs
    | some cur =>
      by_cases hexp : now > cur.expiresAt
      · simp [getCurrentSession, hc, hexp] at hs
      · simp [getAuthenticationStatus, getCurrentSession,
          clearStoredCredentials, hc, hexp]

/-- C10, witness: after clearing the stored credentials of `demoState`, the
live `demoSession` still reports authenticated at t = 500 and permission and
header queries are unchanged. -/
theorem C10_clear_credentials_frame_witness :
    (getAuthenticationStatus 500 (clearStoredCredentials demoState)).1.isAuthenticated
      = true ∧
    (validatePermission 500 (clearStoredCredentials demoState) "objects:get").1
      = (validatePermission 500 demoState "objects:get").1 ∧
    (getApiHeaders 500 (clearStoredCredentials demoState)).1
      = (getApiHeaders 500 demoState).1 :=
  ⟨(C10_clear_credentials_frame 500 demoState "objects:get").2.2.2.2.2.2 demoSession rfl,
   (C10_clear_credentials_frame 500 demoState "objects:get").2.2.2.2.1,
   (C10_clear_credentials_frame 500 demoState "objects:get").2.2.2.2.2.1⟩

end UDL
